import Mathlib

/-!
Verification development for the action-dispatch subsystem of
`imapautofiler` (module `imapautofiler/actions.py`).

The Python module is embedded shallowly:

* Python `re` patterns are embedded as an abstract-syntax tree `Regex`
  together with a backtracking matcher `mrun` that follows CPython's
  `re.search` semantics for the fragment of the language used by the
  module: literal characters, `.`, character classes such as `[^.]`,
  greedy `*`, `+`, `?`, and numbered capturing groups.  The matcher is
  leftmost (it tries start positions in order) and greedy quantifiers
  prefer longer matches first, exactly as CPython's backtracking engine
  does.  `Pattern.groups` of CPython is `Regex.numGroups`;
  `match.groups()` is `groupsOf`, a list with one entry per capturing
  group (`none` for a group that did not participate).
* Each action class becomes a structure holding its resolved
  configuration, a `make` function for its `__init__` (returning
  `Except AErr _`; a raised Python exception is an `.error`), and an
  `invoke` function returning the trace of observable effects: the
  calls made on the connection collaborator plus the info-level log
  records (`Except AErr (List CallRec)`; an `.error` result means the
  exception escaped before any connection call was made).
* Configuration dictionaries become structures with one `Option` field
  per key that the module reads; `none` is an absent key.
-/

deriving instance DecidableEq for Except

namespace Imapautofiler

/-- Abstract syntax of the regular-expression fragment used by
`actions.py`.  `cls cs neg` is a character class: `[c...]` when
`neg = false`, `[^c...]` when `neg = true`.  `group n r` is the `n`-th
capturing group (numbered from 1 in pattern order, as CPython does). -/
inductive Regex where
  | epsilon : Regex
  | chr : Char → Regex
  | anyChar : Regex
  | cls : List Char → Bool → Regex
  | concat : Regex → Regex → Regex
  | alt : Regex → Regex → Regex
  | star : Regex → Regex
  | opt : Regex → Regex
  | group : Nat → Regex → Regex
  deriving DecidableEq, Repr

/-- `r+` desugars to `r r*`, with the same greedy backtracking order
as CPython's `+`. -/
def Regex.plus (r : Regex) : Regex :=
  .concat r (.star r)

/-- Number of capturing groups of a compiled pattern
(CPython `re.Pattern.groups`). -/
def Regex.numGroups : Regex → Nat
  | .epsilon => 0
  | .chr _ => 0
  | .anyChar => 0
  | .cls _ _ => 0
  | .concat a b => a.numGroups + b.numGroups
  | .alt a b => a.numGroups + b.numGroups
  | .star a => a.numGroups
  | .opt a => a.numGroups
  | .group _ a => a.numGroups + 1

/-- Structural size of a pattern, used to compute a sufficient fuel
bound for the backtracking matcher. -/
def Regex.size : Regex → Nat
  | .epsilon => 1
  | .chr _ => 1
  | .anyChar => 1
  | .cls _ _ => 1
  | .concat a b => a.size + b.size + 1
  | .alt a b => a.size + b.size + 1
  | .star a => a.size + 1
  | .opt a => a.size + 1
  | .group _ a => a.size + 1

/-- Capture state: for each group number, the half-open span
`(start, stop)` of the last participation of that group, if any. -/
def Caps : Type := Nat → Option (Nat × Nat)

/-- The CPS backtracking matcher.  `mrun s fuel r i caps k` matches `r`
against `s` starting at index `i` with current captures `caps`, calling
the continuation `k` at each way the match can end; the first `some`
produced wins, which gives CPython's preference order: alternatives
left first, greedy quantifiers longest first.  A quantifier iteration
that consumes nothing is cut off (`j ≤ i`), mirroring CPython's
empty-repeat rule.  `fuel` only forces termination; every recursive
call decreases it, and each star iteration consumes at least one
character, so `matchFuel` below is always sufficient. -/
def mrun (s : List Char) : Nat → Regex → Nat → Caps →
    (Nat → Caps → Option (Nat × Caps)) → Option (Nat × Caps)
  | 0, _, _, _, _ => none
  | fuel + 1, r, i, caps, k =>
    match r with
    | .epsilon => k i caps
    | .chr c =>
      match s.get? i with
      | some c2 => if c2 = c then k (i + 1) caps else none
      | none => none
    | .anyChar =>
      match s.get? i with
      | some c2 => if c2 = '\n' then none else k (i + 1) caps
      | none => none
    | .cls cs neg =>
      match s.get? i with
      | some c2 => if cs.contains c2 = !neg then k (i + 1) caps else none
      | none => none
    | .concat a b =>
      mrun s fuel a i caps (fun j caps2 => mrun s fuel b j caps2 k)
    | .alt a b =>
      match mrun s fuel a i caps k with
      | some res => some res
      | none => mrun s fuel b i caps k
    | .star a =>
      match mrun s fuel a i caps
          (fun j caps2 =>
            if j ≤ i then none else mrun s fuel (.star a) j caps2 k) with
      | some res => some res
      | none => k i caps
    | .opt a =>
      match mrun s fuel a i caps k with
      | some res => some res
      | none => k i caps
    | .group n a =>
      mrun s fuel a i caps
        (fun j caps2 => k j (fun g => if g = n then some (i, j) else caps2 g))

/-- The result of a successful match: the index one past the matched
text and the capture spans. -/
structure MatchRes where
  endPos : Nat
  caps : Caps

/-- Fuel that is always sufficient for `mrun`: recursion depth is
bounded by the pattern size per position plus one unit per consumed
character and star iteration. -/
def matchFuel (r : Regex) (s : List Char) : Nat :=
  (s.length + 2) * (r.size + 2)

/-- Attempt an anchored match of `r` at index `i` of `s`, accepting the
first (most preferred) way the match can succeed, like CPython's
`match` at a fixed position. -/
def tryMatchAt (r : Regex) (s : List Char) (i : Nat) : Option MatchRes :=
  (mrun s (matchFuel r s) r i (fun _ => none) (fun j caps => some (j, caps))).map
    (fun p => ⟨p.1, p.2⟩)

/-- CPython `pattern.search(str)`: try each start position from the
left and return the first position at which the pattern matches. -/
def search (r : Regex) (str : String) : Option MatchRes :=
  (List.range (str.data.length + 1)).findSome? (fun i => tryMatchAt r str.data i)

/-- Substring of `s` for a capture span. -/
def extractSub (s : List Char) (p : Nat × Nat) : String :=
  String.mk ((s.drop p.1).take (p.2 - p.1))

/-- CPython `match.groups()`: one entry per capturing group of the
pattern, `none` for a group that did not participate in the match. -/
def groupsOf (r : Regex) (str : String) (m : MatchRes) : List (Option String) :=
  (List.range r.numGroups).map (fun i => (m.caps (i + 1)).map (extractSub str.data))

/-- `search` followed by `groups()`: the sequence of captured texts of
the leftmost match, when one exists. -/
def pyGroups (r : Regex) (str : String) : Option (List (Option String)) :=
  (search r str).map (groupsOf r str)

/-- `match.groups()` always has one entry per capturing group of the
pattern. -/
theorem groupsOf_length (r : Regex) (str : String) (m : MatchRes) :
    (groupsOf r str m).length = r.numGroups := by
  simp [groupsOf]

/-- The default pattern of `SortMailingList`, `r'<?([^.]+)\..*>?'`. -/
def defaultRegexAst : Regex :=
  .concat (.opt (.chr '<'))
    (.concat (Regex.plus (.cls ['.'] true) |>.group 1)
      (.concat (.chr '.')
        (.concat (.star .anyChar) (.opt (.chr '>')))))

/-- The pattern `<(.*)>` used by the explicit-pattern example. -/
def angleRegexAst : Regex :=
  .concat (.chr '<') (.concat (.group 1 (.star .anyChar)) (.chr '>'))

/-- The pattern `:.*:`, which has no capturing group. -/
def colonNoGroupAst : Regex :=
  .concat (.chr ':') (.concat (.star .anyChar) (.chr ':'))

/-- The pattern `:(.*):(.*):`, which has two capturing groups. -/
def colonTwoGroupAst : Regex :=
  .concat (.chr ':')
    (.concat (.group 1 (.star .anyChar))
      (.concat (.chr ':') (.concat (.group 2 (.star .anyChar)) (.chr ':'))))

example : defaultRegexAst.numGroups = 1 := by decide
example : angleRegexAst.numGroups = 1 := by decide
example : colonNoGroupAst.numGroups = 0 := by decide
example : colonTwoGroupAst.numGroups = 2 := by decide

example : pyGroups defaultRegexAst "<sphinx-dev.googlegroups.com>"
    = some [some "sphinx-dev"] := by decide

example : pyGroups angleRegexAst "<sphinx-dev.googlegroups.com>"
    = some [some "sphinx-dev.googlegroups.com"] := by decide

example : pyGroups defaultRegexAst "" = none := by decide

example : pyGroups colonTwoGroupAst ":a:b:" = some [some "a", some "b"] := by decide

/-- A compiled pattern as stored on an action: the AST together with
the source text of the pattern (CPython `pattern.pattern`), which the
module interpolates into its error messages. -/
structure CompiledRegex where
  ast : Regex
  pattern : String
  deriving DecidableEq

/-- `SortMailingList._default_regex`, compiled. -/
def defaultCompiled : CompiledRegex :=
  ⟨defaultRegexAst, "<?([^.]+)\\..*>?"⟩

/-- The portion of the configuration dictionary read by the module:
one `Option` field per key accessed (`none` models an absent key). -/
structure ActionData where
  name : Option String := none
  destMailbox : Option String := none
  destMailboxBase : Option String := none
  destMailboxRegex : Option CompiledRegex := none
  destMailboxRegexGroup : Option Nat := none
  deriving DecidableEq

/-- The portion of the global configuration dictionary read by the
module (`cfg.get('trash-mailbox')`). -/
structure Cfg where
  trashMailbox : Option String := none
  deriving DecidableEq

/-- An `email.message.Message`, reduced to what the module uses:
case-insensitive header lookup. -/
structure Message where
  headers : List (String × String)
  deriving DecidableEq

/-- ASCII lower-casing of a header name (header names are ASCII). -/
def lowerName (s : String) : String :=
  String.mk (s.data.map Char.toLower)

/-- `message.get(name)` / `message[name]`: case-insensitive lookup of
the first matching header, `none` when absent. -/
def Message.get (m : Message) (name : String) : Option String :=
  (m.headers.find? (fun p => lowerName p.1 == lowerName name)).map (fun p => p.2)

/-- The exceptions raised by `actions.py`, one constructor per raise
site, carrying the data interpolated into the exception message.
`pyType` below records the Python exception class of each. -/
inductive AErr where
  | unrecognizedAction : ActionData → AErr
  | missingBaseMailbox : ActionData → AErr
  | noCaptureGroup : String → AErr
  | ambiguousGroup : String → AErr
  | missingTrashMailbox : AErr
  | destinationResolution : String → String → AErr
  | tupleIndexOutOfRange : AErr
  deriving DecidableEq

/-- The Python exception class of each raise site: every explicit
`raise` in the module is a `ValueError`; the unvalidated group index
makes `match.groups()[idx]` raise an `IndexError`. -/
def AErr.pyType : AErr → String
  | .tupleIndexOutOfRange => "IndexError"
  | _ => "ValueError"

/-- Whether an error is raised while processing a message (inside
`invoke`) rather than at construction time. -/
def AErr.isPerMessage : AErr → Bool
  | .destinationResolution _ _ => true
  | .tupleIndexOutOfRange => true
  | _ => false

/-- Python `'%s' % x` for an optional string: `None` prints as
`"None"`. -/
def pyStr (o : Option String) : String :=
  o.getD "None"

/-- One observable effect of `invoke`: a call on the connection
collaborator, or an info-level log record (debug-level logging is not
part of the observed trace). -/
inductive CallRec where
  | logInfo : String → CallRec
  | moveMessage : String → Option String → String → Message → CallRec
  | deleteMessage : String → String → Message → CallRec
  deriving DecidableEq

/-- Whether a trace entry is a call into the connection collaborator. -/
def CallRec.isConnCall : CallRec → Bool
  | .moveMessage _ _ _ _ => true
  | .deleteMessage _ _ _ => true
  | .logInfo _ => false

/-- Whether a trace entry is an info-level log record. -/
def CallRec.isInfoLog : CallRec → Bool
  | .logInfo _ => true
  | _ => false

/-- The resolved configuration of a `Move` action (also the state of a
constructed `Trash`, which subclasses `Move`): `self._dest_mailbox`. -/
structure Move where
  destMailbox : Option String
  deriving DecidableEq

/-- `Move.__init__`: read `dest-mailbox` from the action data; an
absent key leaves the destination `None`.  Never raises. -/
def Move.make (actionData : ActionData) : Move :=
  ⟨actionData.destMailbox⟩

/-- `Move.invoke`: log `'%s (%s) to %s'` at info level, then call
`conn.move_message(src_mailbox, self._dest_mailbox, message_id,
message)`. -/
def Move.invoke (mv : Move) (srcMailbox messageId : String) (message : Message) :
    Except AErr (List CallRec) :=
  .ok [.logInfo (messageId ++ " (" ++ pyStr (message.get "subject") ++ ") to "
          ++ pyStr mv.destMailbox),
       .moveMessage srcMailbox mv.destMailbox messageId message]

/-- `Trash.__init__`: run `Move.__init__`, then fall back to the global
`trash-mailbox` when the destination is still `None`, and raise when it
is `None` even after the fallback. -/
def Trash.make (actionData : ActionData) (cfg : Cfg) : Except AErr Move :=
  let mv := Move.make actionData
  let dest :=
    match mv.destMailbox with
    | none => cfg.trashMailbox
    | some d => some d
  match dest with
  | none => .error .missingTrashMailbox
  | some d => .ok ⟨some d⟩

/-- `Trash` inherits `invoke` from `Move` unchanged. -/
def Trash.invoke : Move → String → String → Message → Except AErr (List CallRec) :=
  Move.invoke

/-- `Delete.invoke`: log `'%s (%s)'` at info level, then call
`conn.delete_message(mailbox_name, message_id, message)`.  `Delete`
has no configuration state of its own. -/
def Delete.invoke (mailboxName messageId : String) (message : Message) :
    Except AErr (List CallRec) :=
  .ok [.logInfo (messageId ++ " (" ++ pyStr (message.get "subject") ++ ")"),
       .deleteMessage mailboxName messageId message]

/-- The resolved configuration of a `SortMailingList` action. -/
structure SortMailingList where
  destMailboxBase : String
  regex : CompiledRegex
  groupIdx : Nat
  deriving DecidableEq

/-- `SortMailingList.__init__`: require a truthy `dest-mailbox-base`
(`if not self._dest_mailbox_base` rejects both an absent key and an
empty string); compile `dest-mailbox-regex` (defaulting to
`_default_regex`); reject a pattern with zero capturing groups; reject
a pattern with more than one group when `dest-mailbox-regex-group` is
not supplied; the group index defaults to 0. -/
def SortMailingList.make (actionData : ActionData) : Except AErr SortMailingList :=
  if actionData.destMailboxBase.getD "" = "" then
    .error (.missingBaseMailbox actionData)
  else
    let rx := actionData.destMailboxRegex.getD defaultCompiled
    if rx.ast.numGroups = 0 then
      .error (.noCaptureGroup rx.pattern)
    else if 1 < rx.ast.numGroups ∧ actionData.destMailboxRegexGroup = none then
      .error (.ambiguousGroup rx.pattern)
    else
      .ok { destMailboxBase := actionData.destMailboxBase.getD ""
            regex := rx
            groupIdx := actionData.destMailboxRegexGroup.getD 0 }

/-- `SortMailingList._get_dest_mailbox`: read the `list-id` header
(absent means the empty string), `search` the compiled pattern against
it, raise a `ValueError` naming the list-id and the pattern on no
match, and otherwise return
`'x.y'.format(self._dest_mailbox_base, match.groups()[group])`
(an out-of-range group index makes the tuple indexing raise
`IndexError`; `messageId` is used only in debug-level logging). -/
def SortMailingList.getDestMailbox (a : SortMailingList) (messageId : String)
    (message : Message) : Except AErr String :=
  let listId := (message.get "list-id").getD ""
  match search a.regex.ast listId with
  | none => .error (.destinationResolution listId a.regex.pattern)
  | some m =>
    match (groupsOf a.regex.ast listId m).get? a.groupIdx with
    | none => .error .tupleIndexOutOfRange
    | some g => .ok (a.destMailboxBase ++ "." ++ pyStr g)

/-- `SortMailingList.invoke`: resolve the destination (propagating its
exception, in which case no log record is emitted and no connection
call is made), then log and call `conn.move_message`. -/
def SortMailingList.invoke (a : SortMailingList) (srcMailbox messageId : String)
    (message : Message) : Except AErr (List CallRec) :=
  match a.getDestMailbox messageId message with
  | .error e => .error e
  | .ok destMailbox =>
    .ok [.logInfo (messageId ++ " (" ++ pyStr (message.get "subject") ++ ") to "
            ++ destMailbox),
         .moveMessage srcMailbox (some destMailbox) messageId message]

/-- A constructed action, tagged by concrete class. -/
inductive Action where
  | move : Move → Action
  | sortMailingList : SortMailingList → Action
  | trash : Move → Action
  | delete : Action
  deriving DecidableEq

/-- `actions.factory`: dispatch on `action_data.get('name')` to the
matching constructor; raise a `ValueError` carrying the action data for
any other or absent name.  Constructor exceptions propagate. -/
def factory (actionData : ActionData) (cfg : Cfg) : Except AErr Action :=
  let name := actionData.name
  if name = some "move" then
    .ok (.move (Move.make actionData))
  else if name = some "sort-mailing-list" then
    (SortMailingList.make actionData).map .sortMailingList
  else if name = some "delete" then
    .ok .delete
  else if name = some "trash" then
    (Trash.make actionData cfg).map .trash
  else
    .error (.unrecognizedAction actionData)

/-- The configuration of the worked examples:
`{'dest-mailbox-base': 'lists'}` with the default pattern. -/
def dataListsDefault : ActionData :=
  { destMailboxBase := some "lists" }

/-- The action built from `dataListsDefault`. -/
def sortListsDefault : SortMailingList :=
  { destMailboxBase := "lists", regex := defaultCompiled, groupIdx := 0 }

/-- `{'dest-mailbox-base': 'lists', 'dest-mailbox-regex': '<(.*)>'}`. -/
def dataListsAngle : ActionData :=
  { destMailboxBase := some "lists",
    destMailboxRegex := some ⟨angleRegexAst, "<(.*)>"⟩ }

/-- The action built from `dataListsAngle`. -/
def sortListsAngle : SortMailingList :=
  { destMailboxBase := "lists", regex := ⟨angleRegexAst, "<(.*)>"⟩, groupIdx := 0 }

/-- A message of the sphinx-dev mailing list. -/
def msgSphinx : Message :=
  ⟨[("list-id", "<sphinx-dev.googlegroups.com>"), ("subject", "subj")]⟩

/-- A message with no headers at all. -/
def msgNoHeaders : Message :=
  ⟨[]⟩

example : SortMailingList.make dataListsDefault = .ok sortListsDefault := by decide
example : sortListsDefault.getDestMailbox "id" msgSphinx = .ok "lists.sphinx-dev" := by
  decide
example : sortListsAngle.getDestMailbox "id" msgSphinx
    = .ok "lists.sphinx-dev.googlegroups.com" := by decide
example : factory {} {} = .error (.unrecognizedAction {}) := by decide

/-- The pattern `:.*:` as stored on an action. -/
def colonNoGroupCompiled : CompiledRegex :=
  ⟨colonNoGroupAst, ":.*:"⟩

/-- The pattern `:(.*):(.*):` as stored on an action. -/
def colonTwoGroupCompiled : CompiledRegex :=
  ⟨colonTwoGroupAst, ":(.*):(.*):"⟩

/-- `{'dest-mailbox-base': 'lists', 'dest-mailbox-regex': ':.*:'}`. -/
def dataColonNoGroup : ActionData :=
  { destMailboxBase := some "lists",
    destMailboxRegex := some colonNoGroupCompiled }

/-- `{'dest-mailbox-base': 'lists', 'dest-mailbox-regex': ':(.*):(.*):'}`
with no group index supplied. -/
def dataColonTwoNoIdx : ActionData :=
  { destMailboxBase := some "lists",
    destMailboxRegex := some colonTwoGroupCompiled }

/-- `{'dest-mailbox-base': 'lists', 'dest-mailbox-regex': ':(.*):(.*):',
'dest-mailbox-regex-group': 2}`: a two-group pattern with an
out-of-range group index. -/
def dataColonTwoG2 : ActionData :=
  { destMailboxBase := some "lists",
    destMailboxRegex := some colonTwoGroupCompiled,
    destMailboxRegexGroup := some 2 }

/-- The action built from `dataColonTwoG2`. -/
def sortColonTwoG2 : SortMailingList :=
  ⟨"lists", colonTwoGroupCompiled, 2⟩

/-- A message whose `list-id` the pattern `:(.*):(.*):` matches. -/
def msgColon : Message :=
  ⟨[("list-id", ":a:b:")]⟩

/-- The connection calls and info-log records actually performed by an
invocation: none when the invocation raised. -/
def invokeCalls : Except AErr (List CallRec) → List CallRec
  | .error _ => []
  | .ok tr => tr

/-- The error raised by a computation, if any. -/
def errOf {α : Type} : Except AErr α → Option AErr
  | .error e => some e
  | .ok _ => none

/-- `Except.map` does not change an error. -/
theorem map_error_inv {α β : Type} (f : α → β) (x : Except AErr α) (e : AErr)
    (h : x.map f = .error e) : x = .error e := by
  cases x <;> simp_all [Except.map]

/-- Every error raised by `SortMailingList.__init__` is a
construction-phase configuration error. -/
theorem sortMake_error_config (actionData : ActionData) (e : AErr)
    (h : SortMailingList.make actionData = .error e) :
    e.isPerMessage = false ∧ e.pyType = "ValueError" := by
  simp only [SortMailingList.make] at h
  split_ifs at h <;>
    simp only [Except.error.injEq, reduceCtorEq] at h <;>
    subst h <;> simp [AErr.isPerMessage, AErr.pyType]

/-- Every error raised by `Trash.__init__` is a construction-phase
configuration error. -/
theorem trashMake_error_config (actionData : ActionData) (cfg : Cfg) (e : AErr)
    (h : Trash.make actionData cfg = .error e) :
    e.isPerMessage = false ∧ e.pyType = "ValueError" := by
  simp only [Trash.make, Move.make] at h
  split at h <;>
    simp only [Except.error.injEq, reduceCtorEq] at h
  subst h
  simp [AErr.isPerMessage, AErr.pyType]

/-- Every error raised by `_get_dest_mailbox` is a per-message error. -/
theorem getDest_error_perMessage (a : SortMailingList) (messageId : String)
    (message : Message) (e : AErr)
    (h : a.getDestMailbox messageId message = .error e) :
    e.isPerMessage = true := by
  simp only [SortMailingList.getDestMailbox] at h
  split at h
  · simp only [Except.error.injEq] at h
    subst h
    simp [AErr.isPerMessage]
  · split at h <;> simp only [Except.error.injEq, reduceCtorEq] at h
    subst h
    simp [AErr.isPerMessage]

/-- Claim C1: on a match of the configured regex against the message's
list-id, `_get_dest_mailbox` returns the base mailbox, a dot, and
`match.groups()[group]` (0-based into the captured groups, the whole
match excluded); with base `"lists"` and the default pattern, list-id
`"<sphinx-dev.googlegroups.com>"` resolves to `"lists.sphinx-dev"`,
and with explicit pattern `"<(.*)>"` it resolves to
`"lists.sphinx-dev.googlegroups.com"`. -/
theorem sortMailingList_resolveDestination (a : SortMailingList)
    (messageId : String) (message : Message) (gs : List (Option String))
    (g : Option String)
    (hg : pyGroups a.regex.ast ((message.get "list-id").getD "") = some gs)
    (hget : gs.get? a.groupIdx = some g) :
    a.getDestMailbox messageId message
      = .ok (a.destMailboxBase ++ "." ++ pyStr g)
    ∧ SortMailingList.make dataListsDefault = .ok sortListsDefault
    ∧ sortListsDefault.getDestMailbox "id" msgSphinx = .ok "lists.sphinx-dev"
    ∧ SortMailingList.make dataListsAngle = .ok sortListsAngle
    ∧ sortListsAngle.getDestMailbox "id" msgSphinx
      = .ok "lists.sphinx-dev.googlegroups.com" := by
  refine ⟨?_, by decide, by decide, by decide, by decide⟩
  unfold pyGroups at hg
  cases hsearch : search a.regex.ast ((message.get "list-id").getD "") with
  | none => rw [hsearch] at hg; simp at hg
  | some m =>
    rw [hsearch] at hg
    have hgs : groupsOf a.regex.ast ((message.get "list-id").getD "") m = gs := by
      simpa using hg
    rw [List.get?_eq_getElem?] at hget
    simp [SortMailingList.getDestMailbox, hsearch, hgs, hget]

/-- Claim C1 witness: the general statement instantiated at the
default-pattern example. -/
theorem sortMailingList_resolveDestination_witness :
    sortListsDefault.getDestMailbox "id" msgSphinx = .ok "lists.sphinx-dev" := by
  have h := (sortMailingList_resolveDestination sortListsDefault "id" msgSphinx
    [some "sphinx-dev"] (some "sphinx-dev") (by decide) (by decide)).1
  simpa using h

/-- Claim C2: `SortMailingList.__init__` validation, in order: absent
`dest-mailbox-base` fails; then a pattern with zero capturing groups
fails; then a pattern with more than one group and no
`dest-mailbox-regex-group` fails; with exactly one group the index
defaults to 0 and a supplied index overrides it.  All checks are in
`make`, which runs before any message is processed. -/
theorem sortMailingList_ctor_validation (actionData : ActionData) :
    (actionData.destMailboxBase = none →
      SortMailingList.make actionData = .error (.missingBaseMailbox actionData))
    ∧ (∀ b rx, actionData.destMailboxBase = some b → b ≠ "" →
      actionData.destMailboxRegex.getD defaultCompiled = rx →
      ((rx.ast.numGroups = 0 →
        SortMailingList.make actionData = .error (.noCaptureGroup rx.pattern))
      ∧ (1 < rx.ast.numGroups → actionData.destMailboxRegexGroup = none →
        SortMailingList.make actionData = .error (.ambiguousGroup rx.pattern))
      ∧ (rx.ast.numGroups = 1 → actionData.destMailboxRegexGroup = none →
        SortMailingList.make actionData = .ok ⟨b, rx, 0⟩)
      ∧ (∀ g, rx.ast.numGroups = 1 → actionData.destMailboxRegexGroup = some g →
        SortMailingList.make actionData = .ok ⟨b, rx, g⟩))) := by
  constructor
  · intro h
    unfold SortMailingList.make
    simp [h]
  · intro b rx hb hbne hrx
    refine ⟨?_, ?_, ?_, ?_⟩
    · intro h0
      unfold SortMailingList.make
      simp [hb, hbne, hrx, h0]
    · intro h1 hg
      unfold SortMailingList.make
      have hne : rx.ast.numGroups ≠ 0 := by omega
      simp [hb, hbne, hrx, hne, h1, hg]
    · intro h1 hg
      unfold SortMailingList.make
      have hne : rx.ast.numGroups ≠ 0 := by omega
      have hnlt : ¬ 1 < rx.ast.numGroups := by omega
      simp [hb, hbne, hrx, hne, hnlt, hg]
    · intro g h1 hg
      unfold SortMailingList.make
      have hne : rx.ast.numGroups ≠ 0 := by omega
      have hnlt : ¬ 1 < rx.ast.numGroups := by omega
      simp [hb, hbne, hrx, hne, hnlt, hg]

/-- Claim C2 witness: the spec's construction examples, through the
general statement. -/
theorem sortMailingList_ctor_validation_witness :
    SortMailingList.make dataColonNoGroup = .error (.noCaptureGroup ":.*:")
    ∧ SortMailingList.make dataColonTwoNoIdx = .error (.ambiguousGroup ":(.*):(.*):")
    ∧ SortMailingList.make dataListsDefault = .ok ⟨"lists", defaultCompiled, 0⟩ :=
  ⟨((sortMailingList_ctor_validation dataColonNoGroup).2 "lists" colonNoGroupCompiled
      rfl (by decide) rfl).1 (by decide),
   (((sortMailingList_ctor_validation dataColonTwoNoIdx).2 "lists"
      colonTwoGroupCompiled rfl (by decide) rfl).2.1) (by decide) rfl,
   (((sortMailingList_ctor_validation dataListsDefault).2 "lists" defaultCompiled rfl
      (by decide) rfl).2.2.1) (by decide) rfl⟩

/-- Claim C3: `Trash` resolves its destination to the local
`dest-mailbox` when present; otherwise to the global `trash-mailbox`;
and fails at construction time when both are absent.  Its `invoke` is
`Move.invoke` itself. -/
theorem trash_fallback_precedence (actionData : ActionData) (cfg : Cfg) :
    (∀ d, actionData.destMailbox = some d →
      Trash.make actionData cfg = .ok ⟨some d⟩)
    ∧ (actionData.destMailbox = none → ∀ t, cfg.trashMailbox = some t →
      Trash.make actionData cfg = .ok ⟨some t⟩)
    ∧ (actionData.destMailbox = none → cfg.trashMailbox = none →
      Trash.make actionData cfg = .error .missingTrashMailbox)
    ∧ Trash.invoke = Move.invoke
    ∧ Trash.make {} ⟨some "T"⟩ = .ok ⟨some "T"⟩
    ∧ Trash.make { destMailbox := some "O" } ⟨some "T"⟩ = .ok ⟨some "O"⟩
    ∧ Trash.make {} {} = .error .missingTrashMailbox := by
  refine ⟨?_, ?_, ?_, rfl, by decide, by decide, by decide⟩
  · intro d hd
    unfold Trash.make Move.make
    simp [hd]
  · intro hd t ht
    unfold Trash.make Move.make
    simp [hd, ht]
  · intro hd ht
    unfold Trash.make Move.make
    simp [hd, ht]

/-- Claim C3 witness: the spec's three `Trash` examples, through the
general statement. -/
theorem trash_fallback_precedence_witness :
    Trash.make { destMailbox := some "O" } ⟨some "T"⟩ = .ok ⟨some "O"⟩
    ∧ Trash.make {} ⟨some "T"⟩ = .ok ⟨some "T"⟩
    ∧ Trash.make {} {} = .error .missingTrashMailbox :=
  ⟨(trash_fallback_precedence { destMailbox := some "O" } ⟨some "T"⟩).1 "O" rfl,
   (trash_fallback_precedence {} ⟨some "T"⟩).2.1 rfl "T" rfl,
   (trash_fallback_precedence {} {}).2.2.1 rfl rfl⟩

/-- Claim C4: `factory` dispatches `name` to the four concrete actions,
propagates their construction errors unchanged, and raises an
unrecognized-action error carrying the config for any other or absent
name, in particular for `factory({}, {})`. -/
theorem factory_dispatch (actionData : ActionData) (cfg : Cfg) :
    (actionData.name = some "move" →
      factory actionData cfg = .ok (.move (Move.make actionData)))
    ∧ (actionData.name = some "sort-mailing-list" →
      factory actionData cfg = (SortMailingList.make actionData).map .sortMailingList)
    ∧ (actionData.name = some "delete" →
      factory actionData cfg = .ok .delete)
    ∧ (actionData.name = some "trash" →
      factory actionData cfg = (Trash.make actionData cfg).map .trash)
    ∧ (actionData.name ≠ some "move" → actionData.name ≠ some "sort-mailing-list" →
      actionData.name ≠ some "delete" → actionData.name ≠ some "trash" →
      factory actionData cfg = .error (.unrecognizedAction actionData))
    ∧ factory {} {} = .error (.unrecognizedAction {}) := by
  refine ⟨?_, ?_, ?_, ?_, ?_, by decide⟩
  · intro h
    simp [factory, h]
  · intro h
    simp [factory, h]
  · intro h
    simp [factory, h]
  · intro h
    simp [factory, h]
  · intro h1 h2 h3 h4
    simp [factory, h1, h2, h3, h4]

/-- Claim C4 witness: dispatch at concrete configurations, through the
general statement. -/
theorem factory_dispatch_witness :
    factory { name := some "delete" } {} = .ok .delete
    ∧ factory { name := some "move", destMailbox := some "X" } {}
      = .ok (.move ⟨some "X"⟩)
    ∧ factory {} {} = .error (.unrecognizedAction {}) :=
  ⟨(factory_dispatch { name := some "delete" } {}).2.2.1 rfl,
   (factory_dispatch { name := some "move", destMailbox := some "X" } {}).1 rfl,
   (factory_dispatch {} {}).2.2.2.2.2⟩

/-- Claim C5: when the compiled regex does not match the message's
list-id (an absent header reads as `""`), `invoke` raises a
destination-resolution error naming the list-id and the pattern, makes
no connection call, and in particular a message with no `list-id`
header fails this way under the default pattern. -/
theorem sortMailingList_no_match_error (a : SortMailingList)
    (srcMailbox messageId : String) (message : Message)
    (hn : (search a.regex.ast ((message.get "list-id").getD "")).isNone = true) :
    a.invoke srcMailbox messageId message
      = .error (.destinationResolution ((message.get "list-id").getD "")
          a.regex.pattern)
    ∧ invokeCalls (a.invoke srcMailbox messageId message) = []
    ∧ sortListsDefault.invoke "src" "id1" msgNoHeaders
      = .error (.destinationResolution "" "<?([^.]+)\\..*>?") := by
  have h : search a.regex.ast ((message.get "list-id").getD "") = none :=
    Option.isNone_iff_eq_none.mp hn
  have hd : a.getDestMailbox messageId message
      = .error (.destinationResolution ((message.get "list-id").getD "")
          a.regex.pattern) := by
    simp only [SortMailingList.getDestMailbox]
    rw [h]
  have hi : a.invoke srcMailbox messageId message
      = .error (.destinationResolution ((message.get "list-id").getD "")
          a.regex.pattern) := by
    unfold SortMailingList.invoke
    rw [hd]
  exact ⟨hi, by rw [hi]; rfl, by decide⟩

/-- Claim C5 witness: the general statement at a message with no
`list-id` header under the default pattern. -/
theorem sortMailingList_no_match_error_witness :
    sortListsDefault.invoke "src" "id1" msgNoHeaders
      = .error (.destinationResolution "" "<?([^.]+)\\..*>?")
    ∧ invokeCalls (sortListsDefault.invoke "src" "id1" msgNoHeaders) = [] := by
  have h := sortMailingList_no_match_error sortListsDefault "src" "id1" msgNoHeaders
    (by decide)
  exact ⟨by simpa using h.1, h.2.1⟩

/-- Claim C6 counterexample: a configuration error (missing trash
mailbox) and the per-message destination-resolution error are both
raised as the same Python exception type, `ValueError`, so the two
classes are not distinguishable by error type. -/
theorem error_types_conflated :
    errOf (Trash.make {} {}) = some .missingTrashMailbox
    ∧ errOf (sortListsDefault.invoke "src" "id1" msgNoHeaders)
      = some (.destinationResolution "" "<?([^.]+)\\..*>?")
    ∧ AErr.pyType .missingTrashMailbox
      = AErr.pyType (.destinationResolution "" "<?([^.]+)\\..*>?") := by
  decide

/-- Claim C6 amended: configuration errors and per-message errors are
not distinguishable by Python exception type (`factory` and the
constructors raise plain `ValueError`, as does the per-message
resolution failure); they are distinguishable by the phase that raises
them: `factory` construction only raises configuration-phase errors,
and `SortMailingList.invoke` only raises per-message errors. -/
theorem error_phase_distinguishable :
    (∀ (actionData : ActionData) (cfg : Cfg) e,
      factory actionData cfg = .error e →
      e.isPerMessage = false ∧ e.pyType = "ValueError")
    ∧ (∀ (a : SortMailingList) srcMailbox messageId message e,
      a.invoke srcMailbox messageId message = .error e →
      e.isPerMessage = true) := by
  constructor
  · intro actionData cfg e h
    simp only [factory] at h
    split_ifs at h
    all_goals
      first
      | exact Except.noConfusion h
      | exact sortMake_error_config actionData e (map_error_inv _ _ _ h)
      | exact trashMake_error_config actionData cfg e (map_error_inv _ _ _ h)
      | (simp only [Except.error.injEq] at h; subst h; exact ⟨rfl, rfl⟩)
  · intro a srcMailbox messageId message e h
    unfold SortMailingList.invoke at h
    cases hd : a.getDestMailbox messageId message with
    | error e2 =>
      rw [hd] at h
      simp only [Except.error.injEq] at h
      subst h
      exact getDest_error_perMessage a messageId message e2 hd
    | ok d => rw [hd] at h; simp at h

/-- Claim C6 amended witness: the phase split at concrete inputs. -/
theorem error_phase_distinguishable_witness :
    ((AErr.unrecognizedAction {}).isPerMessage = false
      ∧ (AErr.unrecognizedAction {}).pyType = "ValueError")
    ∧ (AErr.destinationResolution "" "<?([^.]+)\\..*>?").isPerMessage = true :=
  ⟨error_phase_distinguishable.1 {} {} (.unrecognizedAction {}) (by decide),
   error_phase_distinguishable.2 sortListsDefault "src" "id1" msgNoHeaders
     (.destinationResolution "" "<?([^.]+)\\..*>?") (by decide)⟩

/-- Claim C7: every successful `invoke` makes exactly one connection
call and emits exactly one info-level log record; `Delete` never calls
`move_message`; the concrete `Delete` and `Move` invocations make
exactly the claimed single calls. -/
theorem invoke_single_connection_call :
    (∀ (mv : Move) srcMailbox messageId message tr,
      Move.invoke mv srcMailbox messageId message = .ok tr →
      tr.countP CallRec.isConnCall = 1 ∧ tr.countP CallRec.isInfoLog = 1)
    ∧ (∀ (mv : Move) srcMailbox messageId message tr,
      Trash.invoke mv srcMailbox messageId message = .ok tr →
      tr.countP CallRec.isConnCall = 1 ∧ tr.countP CallRec.isInfoLog = 1)
    ∧ (∀ mailboxName messageId message tr,
      Delete.invoke mailboxName messageId message = .ok tr →
      (tr.countP CallRec.isConnCall = 1 ∧ tr.countP CallRec.isInfoLog = 1
        ∧ ∀ s d i m, CallRec.moveMessage s d i m ∉ tr))
    ∧ (∀ (a : SortMailingList) srcMailbox messageId message tr,
      SortMailingList.invoke a srcMailbox messageId message = .ok tr →
      tr.countP CallRec.isConnCall = 1 ∧ tr.countP CallRec.isInfoLog = 1)
    ∧ Delete.invoke "src" "id1" msgNoHeaders
      = .ok [.logInfo "id1 (None)", .deleteMessage "src" "id1" msgNoHeaders]
    ∧ (∀ message, Move.invoke ⟨some "X"⟩ "src" "id1" message
      = .ok [.logInfo ("id1" ++ " (" ++ pyStr (message.get "subject") ++ ") to "
               ++ "X"),
             .moveMessage "src" (some "X") "id1" message]) := by
  refine ⟨?_, ?_, ?_, ?_, by decide, ?_⟩
  · intro mv srcMailbox messageId message tr h
    unfold Move.invoke at h
    simp only [Except.ok.injEq] at h
    subst h
    simp [List.countP_cons, CallRec.isConnCall, CallRec.isInfoLog]
  · intro mv srcMailbox messageId message tr h
    unfold Trash.invoke Move.invoke at h
    simp only [Except.ok.injEq] at h
    subst h
    simp [List.countP_cons, CallRec.isConnCall, CallRec.isInfoLog]
  · intro mailboxName messageId message tr h
    unfold Delete.invoke at h
    simp only [Except.ok.injEq] at h
    subst h
    refine ⟨by simp [List.countP_cons, CallRec.isConnCall, CallRec.isInfoLog],
      by simp [List.countP_cons, CallRec.isConnCall, CallRec.isInfoLog], ?_⟩
    intro s d i m
    simp
  · intro a srcMailbox messageId message tr h
    unfold SortMailingList.invoke at h
    cases hd : a.getDestMailbox messageId message with
    | error e => rw [hd] at h; simp at h
    | ok dest =>
      rw [hd] at h
      simp only [Except.ok.injEq] at h
      subst h
      simp [List.countP_cons, CallRec.isConnCall, CallRec.isInfoLog]
  · intro message
    unfold Move.invoke
    rfl

/-- Claim C7 witness: the single-call property at the concrete `Move`
invocation of the spec. -/
theorem invoke_single_connection_call_witness :
    [CallRec.logInfo "id1 (None) to X",
     CallRec.moveMessage "src" (some "X") "id1" msgNoHeaders].countP
      CallRec.isConnCall = 1 :=
  (invoke_single_connection_call.1 ⟨some "X"⟩ "src" "id1" msgNoHeaders _ (by decide)).1

/-- Claim C8: the constructor never range-checks
`dest-mailbox-regex-group`: with the two-group pattern `:(.*):(.*):`
and index 2 construction succeeds, and on any message the pattern
matches, `_get_dest_mailbox` raises the tuple-indexing `IndexError`
rather than the destination-resolution error. -/
theorem sortMailingList_group_index_unchecked (a : SortMailingList)
    (messageId : String) (message : Message)
    (hidx : a.regex.ast.numGroups ≤ a.groupIdx)
    (hm : (search a.regex.ast ((message.get "list-id").getD "")).isSome = true) :
    a.getDestMailbox messageId message = .error .tupleIndexOutOfRange
    ∧ (∀ srcMailbox,
      a.invoke srcMailbox messageId message = .error .tupleIndexOutOfRange)
    ∧ (∀ (d : ActionData) b g, d.destMailboxBase = some b → b ≠ "" →
      d.destMailboxRegex = some colonTwoGroupCompiled →
      d.destMailboxRegexGroup = some g →
      SortMailingList.make d = .ok ⟨b, colonTwoGroupCompiled, g⟩)
    ∧ SortMailingList.make dataColonTwoG2 = .ok sortColonTwoG2
    ∧ sortColonTwoG2.invoke "src" "id1" msgColon = .error .tupleIndexOutOfRange
    ∧ (∀ lid pat, AErr.tupleIndexOutOfRange ≠ .destinationResolution lid pat) := by
  have hd : a.getDestMailbox messageId message = .error .tupleIndexOutOfRange := by
    simp only [SortMailingList.getDestMailbox]
    cases hsearch : search a.regex.ast ((message.get "list-id").getD "") with
    | none => rw [hsearch] at hm; simp at hm
    | some m =>
      have hlen : (groupsOf a.regex.ast ((message.get "list-id").getD "") m).length
          ≤ a.groupIdx := by
        rw [groupsOf_length]
        exact hidx
      simp [List.getElem?_eq_none hlen]
  refine ⟨hd, ?_, ?_, by decide, by decide, by intro lid pat; simp⟩
  · intro srcMailbox
    unfold SortMailingList.invoke
    rw [hd]
  · intro d b g hb hbne hrx hg
    unfold SortMailingList.make
    simp [hb, hbne, hrx, hg, colonTwoGroupCompiled, colonTwoGroupAst,
      Regex.numGroups]

/-- Claim C8 witness: the general statement at the two-group pattern
with index 2 and a matching message. -/
theorem sortMailingList_group_index_unchecked_witness :
    sortColonTwoG2.getDestMailbox "id1" msgColon = .error .tupleIndexOutOfRange :=
  (sortMailingList_group_index_unchecked sortColonTwoG2 "id1" msgColon
    (by decide) (by decide)).1

/-- Claim C9: `Trash`'s fallback triggers only on an absent (`None`)
`dest-mailbox`: an empty-string `dest-mailbox` makes construction
succeed with destination `""`, the global fallback unused and no
missing-trash-mailbox error, and `invoke` passes `""` to
`move_message`. -/
theorem trash_empty_dest_no_fallback (actionData : ActionData) (cfg : Cfg)
    (h : actionData.destMailbox = some "") :
    Trash.make actionData cfg = .ok ⟨some ""⟩
    ∧ (∀ srcMailbox messageId message,
      CallRec.moveMessage srcMailbox (some "") messageId message
        ∈ invokeCalls (Trash.invoke ⟨some ""⟩ srcMailbox messageId message)) := by
  constructor
  · unfold Trash.make Move.make
    simp [h]
  · intro srcMailbox messageId message
    unfold Trash.invoke Move.invoke invokeCalls
    simp

/-- Claim C9 witness: the general statement at a concrete config whose
global trash mailbox is set yet unused. -/
theorem trash_empty_dest_no_fallback_witness :
    Trash.make { destMailbox := some "" } ⟨some "T"⟩ = .ok ⟨some ""⟩
    ∧ CallRec.moveMessage "src" (some "") "id1" msgNoHeaders
      ∈ invokeCalls (Trash.invoke ⟨some ""⟩ "src" "id1" msgNoHeaders) :=
  ⟨(trash_empty_dest_no_fallback { destMailbox := some "" } ⟨some "T"⟩ rfl).1,
   (trash_empty_dest_no_fallback { destMailbox := some "" } ⟨some "T"⟩ rfl).2
     "src" "id1" msgNoHeaders⟩

/-- Claim C10: `SortMailingList` rejects an empty-string
`dest-mailbox-base` exactly like an absent one: any falsy value fails
construction with the missing-base-mailbox error. -/
theorem sortMailingList_rejects_falsy_base (actionData : ActionData)
    (h : actionData.destMailboxBase = none ∨ actionData.destMailboxBase = some "") :
    SortMailingList.make actionData = .error (.missingBaseMailbox actionData) := by
  unfold SortMailingList.make
  rcases h with h | h <;> simp [h]

/-- Claim C10 witness: the general statement at an empty-string base. -/
theorem sortMailingList_rejects_falsy_base_witness :
    SortMailingList.make { destMailboxBase := some "" }
      = .error (.missingBaseMailbox { destMailboxBase := some "" }) :=
  sortMailingList_rejects_falsy_base { destMailboxBase := some "" } (Or.inr rfl)

end Imapautofiler
